import Mathlib

/-!
Verification of the mail-dispatch subsystem (`src/mail.rs`).

Strings are modelled as `List Char`.  Fallible Rust functions returning
`Result<_, Error>` are modelled with `Except MailFailure _`; the distinct
`err!` messages of the source are mapped to distinct `MailFailure`
constructors.  External collaborators (the template renderer, the claims
encoder, the IDNA crate, the time-zone database) are passed in as function
parameters, so that the theorems quantify over their behaviour.
-/

namespace VwMail

/-- Error kinds of the module.  Each constructor corresponds to one `err!`
message (or error source) in `src/mail.rs`:
`invalidAddress` = "Invalid email address (no @)",
`domainEncoding` = "Can't convert email domain to ASCII representation",
`templateFormat` = "Template doesn't contain subject"/"... body",
`renderFailed`   = a failure of the external template renderer. -/
inductive MailFailure
  | invalidAddress
  | domainEncoding
  | templateFormat
  | renderFailed
deriving DecidableEq, Repr

/-- Decidable equality for `Except`, used to evaluate the embedded
functions on concrete inputs. -/
instance {ε α : Type} [DecidableEq ε] [DecidableEq α] : DecidableEq (Except ε α) := fun x y =>
  match x, y with
  | .error a, .error b =>
    if h : a = b then .isTrue (by rw [h]) else .isFalse (fun hh => h (Except.error.inj hh))
  | .error _, .ok _ => .isFalse (fun hh => Except.noConfusion hh)
  | .ok _, .error _ => .isFalse (fun hh => Except.noConfusion hh)
  | .ok a, .ok b =>
    if h : a = b then .isTrue (by rw [h]) else .isFalse (fun hh => h (Except.ok.inj hh))

/-! ## Generic string (List Char) helpers, mirroring the Rust std functions
used by `mail.rs`. -/

/-- Rust `str::trim` (whitespace on both ends; the module only ever trims
ASCII whitespace, which `Char.isWhitespace` covers). -/
def trimCh (s : List Char) : List Char :=
  ((s.dropWhile Char.isWhitespace).reverse.dropWhile Char.isWhitespace).reverse

/-- Rust `str::trim_matches` with a character predicate: strips matching
characters from both ends. -/
def trimMatchesCh (p : Char → Bool) (s : List Char) : List Char :=
  ((s.dropWhile p).reverse.dropWhile p).reverse

/-- Index of the first occurrence of the pattern `pat` in `s` (the position
where Rust's `str::split` would cut next); `none` when `pat` never occurs. -/
def findSeq (pat : List Char) : List Char → Option Nat
  | [] => if pat.isEmpty then some 0 else none
  | c :: cs =>
    if pat.isPrefixOf (c :: cs) then some 0
    else (findSeq pat cs).map (fun i => i + 1)

/-- One step of Rust's `str::split(pat)` iterator: the segment before the
first occurrence of `pat`, and (when `pat` occurs) the remaining text after
that occurrence. -/
def splitNext (pat : List Char) (s : List Char) : List Char × Option (List Char) :=
  match findSeq pat s with
  | none => (s, none)
  | some i => (s.take i, some (s.drop (i + pat.length)))

/-- Split at the first occurrence of the character `sep`: `some (before, after)`
if `sep` occurs, `none` otherwise. -/
def breakAtFirst (sep : Char) : List Char → Option (List Char × List Char)
  | [] => none
  | c :: cs =>
    if c = sep then some ([], cs)
    else (breakAtFirst sep cs).map (fun p => (c :: p.1, p.2))

/-- Rust `str::rsplitn(2, sep).collect::<Vec<_>>()`: if `sep` occurs, the
result is `[afterLast, beforeLast]` (segment after the right-most `sep`
first, then everything before it); otherwise `[s]`. -/
def rsplitn2 (sep : Char) (s : List Char) : List (List Char) :=
  match breakAtFirst sep s.reverse with
  | none => [s]
  | some (a, b) => [a.reverse, b.reverse]

/-- Rust `str::split(sep)` on a single character, full list of segments. -/
def splitOnCh (sep : Char) : List Char → List (List Char)
  | [] => [[]]
  | c :: cs =>
    if c = sep then [] :: splitOnCh sep cs
    else
      match splitOnCh sep cs with
      | [] => [[c]]
      | t :: ts => (c :: t) :: ts

/-! ## AddressNormalizer (`send_email`, src/mail.rs lines 303–314) -/

/-- The recipient-normalization prefix of `send_email` (lines 303–314):
`rsplitn(2, '@')`, length check, strict IDNA to-ASCII on the domain
segment, reassembly.  The IDNA transform (`idna::domain_to_ascii_strict`,
an external crate) is a parameter returning `none` exactly when it rejects
the domain. -/
def normalize_address (idnaToAscii : List Char → Option (List Char))
    (address : List Char) : Except MailFailure (List Char) :=
  match rsplitn2 '@' address with
  | [d, l] =>
    match idnaToAscii d with
    | some domain_puny => .ok (l ++ '@' :: domain_puny)
    | none => .error .domainEncoding
  | _ => .error .invalidAddress

/-- Modelled from the spec: the strict IDNA to-ASCII transform
(`idna::domain_to_ascii_strict`, an external crate, not part of this
repository's sources).  Restricted to all-ASCII lower-case input, where the
strict transform is the identity exactly when every dot-separated label is
non-empty, uses only letters, digits and hyphens, neither starts nor ends
with a hyphen, is at most 63 characters long, and the whole domain is at
most 253 characters; it rejects otherwise (in particular it rejects the
empty domain).  Used only to instantiate the parametric theorems at
concrete inputs. -/
def idnaAsciiModel (d : List Char) : Option (List Char) :=
  let labelOk : List Char → Bool := fun lab =>
    decide (lab ≠ []) &&
    lab.all (fun c => c.isLower || c.isDigit || c = '-') &&
    decide (lab.head? ≠ some '-') && decide (lab.getLast? ≠ some '-') &&
    decide (lab.length ≤ 63)
  if decide (d ≠ []) && decide (d.length ≤ 253) && (splitOnCh '.' d).all labelOk then
    some d
  else
    none

/-! ## ContentRenderer (`get_template` / `get_text`, src/mail.rs lines 82–103) -/

/-- The literal subject/body delimiter marker of the templates. -/
def templateDelim : List Char := "<!---------------->".toList

/-- `get_template` (lines 88–103).  `render` stands for
`CONFIG.render_template` (the external templating collaborator); its
failures are propagated by the `?` operator.  The rendered text is run
through the `str::split` iterator on the delimiter: the first `next()` is
the subject (trimmed), the second `next()` is the body (trimmed); the body
`next()` is `None` — "Template doesn't contain body" — exactly when the
delimiter does not occur in the text.  (The source's "Template doesn't
contain subject" branch is unreachable: a `split` iterator always yields a
first element.) -/
def get_template (render : List Char → Except MailFailure (List Char))
    (template_name : List Char) : Except MailFailure (List Char × List Char) :=
  match render template_name with
  | .error e => .error e
  | .ok text =>
    match splitNext templateDelim text with
    | (_, none) => .error .templateFormat
    | (first, some rest) =>
      .ok (trimCh first, trimCh (splitNext templateDelim rest).1)

/-- The splitting rule as the spec words it (for comparison with
`get_template`, which is translated from the source): the rendered text is
split on the FIRST occurrence of the delimiter only, and everything after
that occurrence, trimmed, is the body. -/
def get_template_specModel (render : List Char → Except MailFailure (List Char))
    (template_name : List Char) : Except MailFailure (List Char × List Char) :=
  match render template_name with
  | .error e => .error e
  | .ok text =>
    match splitNext templateDelim text with
    | (_, none) => .error .templateFormat
    | (first, some rest) => .ok (trimCh first, trimCh rest)

/-- The `.html` suffix appended by `get_text` (`format!("{}.html", name)`). -/
def htmlSuffix : List Char := ".html".toList

/-- `get_text` (lines 82–86), instrumented with the list of template names
passed to the collaborator: each `get_template` call invokes
`CONFIG.render_template` exactly once (its first statement), so the second
component is the exact sequence of collaborator invocations.  The `?` on
the first call short-circuits, so the second call only happens when the
first succeeded.  The plain-text variant's subject is bound to
`_subject_text` and dropped. -/
def get_text (render : List Char → Except MailFailure (List Char))
    (template_name : List Char) :
    Except MailFailure (List Char × List Char × List Char) × List (List Char) :=
  match get_template render (template_name ++ htmlSuffix) with
  | .error e => (.error e, [template_name ++ htmlSuffix])
  | .ok (subject_html, body_html) =>
    match get_template render template_name with
    | .error e => (.error e, [template_name ++ htmlSuffix, template_name])
    | .ok (_subject_text, body_text) =>
      (.ok (subject_html, body_html, body_text),
       [template_name ++ htmlSuffix, template_name])

/-! ## TransportBuilder (`mailer`, src/mail.rs lines 22–80) -/

/-- `native_tls::Protocol` values relevant to the builder. -/
inductive TlsProtocol
  | tlsv10
  | tlsv11
  | tlsv12
deriving DecidableEq, Repr

/-- `lettre::TlsParameters`: built from the target host and a
`TlsConnector` whose only configured property here is the minimum protocol
version (line 27). -/
structure TlsParameters where
  host : List Char
  minProtocolVersion : TlsProtocol
deriving DecidableEq, Repr

/-- `lettre::Tls` client-security modes. -/
inductive Tls
  | phantom
  | required (params : TlsParameters)
  | wrapper (params : TlsParameters)
deriving DecidableEq, Repr

/-- `lettre`'s SMTP `Mechanism` enum. -/
inductive Mechanism
  | plain
  | login
  | xoauth2
deriving DecidableEq, Repr

/-- `Mechanism`'s `Display` strings ("PLAIN", "LOGIN", "XOAUTH2"). -/
def mechanismDisplay : Mechanism → List Char
  | .plain => "PLAIN".toList
  | .login => "LOGIN".toList
  | .xoauth2 => "XOAUTH2".toList

/-- `to_lowercase` on the ASCII strings involved here. -/
def lowerCh (s : List Char) : List Char := s.map Char.toLower

/-- The closure `|c| c == '"' || c == '\'' || c == ' '` of line 62. -/
def isQuoteOrSpace (c : Char) : Bool := c == '"' || c == '\'' || c == ' '

/-- The `allowed_mechanisms` vector of line 58, in source order. -/
def allowed_mechanisms : List Mechanism := [.plain, .login, .xoauth2]

/-- The selection loop of lines 59–66: the OUTER loop runs over the
comma-separated tokens of the configured preference string, the INNER loop
over `allowed_mechanisms`; every match is pushed, so the collected order
follows the configured tokens. -/
def selected_mechanisms (mechanism : List Char) : List Mechanism :=
  (splitOnCh ',' mechanism).flatMap (fun wanted_mechanism =>
    allowed_mechanisms.filter (fun m =>
      lowerCh (mechanismDisplay m) ==
        lowerCh (trimMatchesCh isQuoteOrSpace wanted_mechanism)))

/-- The selection as the spec words it (for comparison with
`selected_mechanisms`, which is translated from the source): matches
collected in the order the ALLOWED set is iterated. -/
def selected_mechanisms_specModel (mechanism : List Char) : List Mechanism :=
  allowed_mechanisms.filter (fun m =>
    (splitOnCh ',' mechanism).any (fun wanted_mechanism =>
      lowerCh (mechanismDisplay m) ==
        lowerCh (trimMatchesCh isQuoteOrSpace wanted_mechanism)))

/-- The configuration fields read by `mailer`. -/
structure Config where
  smtp_host : Option (List Char)
  smtp_ssl : Bool
  smtp_explicit_tls : Bool
  smtp_port : Nat
  smtp_username : Option (List Char)
  smtp_password : Option (List Char)
  helo_name : Option (List Char)
  smtp_auth_mechanism : Option (List Char)
  smtp_timeout : Nat
deriving Repr

/-- The builder state accumulated by `mailer` before `.build()`.
`authentication = none` means the library-default mechanism selection is
kept; `warnedNoValidMechanism` records whether the non-fatal `warn!` of
line 72 fired. -/
structure SmtpTransport where
  host : List Char
  port : Nat
  tls : Tls
  credentials : Option (List Char × List Char)
  helloName : Option (List Char)
  authentication : Option (List Mechanism)
  warnedNoValidMechanism : Bool
  timeoutSeconds : Nat
deriving DecidableEq, Repr

/-- The observable outcome of calling `mailer()`.  The Rust function's
return type is `SmtpTransport` — it has NO error channel; when
`CONFIG.smtp_host()` is `None`, line 23's `.unwrap()` panics, which
`panicked` models.  (The `TlsConnector` build of lines 26–29 cannot fail
for this fixed configuration.) -/
inductive MailerOutcome
  | panicked
  | built (t : SmtpTransport)
deriving DecidableEq, Repr

/-- `mailer` (lines 22–80). -/
def mailer (cfg : Config) : MailerOutcome :=
  match cfg.smtp_host with
  | none => .panicked
  | some host =>
    let client_security :=
      if cfg.smtp_ssl then
        let params : TlsParameters := ⟨host, .tlsv11⟩
        if cfg.smtp_explicit_tls then Tls.wrapper params else Tls.required params
      else
        Tls.phantom
    let credentials :=
      match cfg.smtp_username, cfg.smtp_password with
      | some user, some pass => some (user, pass)
      | _, _ => none
    let authState :=
      match cfg.smtp_auth_mechanism with
      | some mechanism =>
        let sel := selected_mechanisms mechanism
        if sel.isEmpty then ((none : Option (List Mechanism)), true)
        else (some sel, false)
      | none => (none, false)
    .built ⟨host, cfg.smtp_port, client_security, credentials, cfg.helo_name,
            authState.1, authState.2, cfg.smtp_timeout⟩

/-! ## MessageComposer (`send_email`, src/mail.rs lines 316–343) -/

/-- A MIME body tree: `single` is a leaf (`lettre::SinglePart`) with a
content-transfer-encoding, a Content-Type header value and a body;
`multi` is a `lettre::MultiPart` with its subtype and children. -/
inductive MimePart
  | single (encoding : List Char) (contentType : List Char) (body : List Char)
  | multi (subtype : List Char) (parts : List MimePart)

/-- The content leaves of a MIME tree, left to right. -/
def mimeLeaves : MimePart → List (List Char × List Char × List Char)
  | .single enc ct b => [(enc, ct, b)]
  | .multi _ parts => parts.attach.flatMap (fun x => mimeLeaves x.1)
termination_by m => sizeOf m
decreasing_by
  have := List.sizeOf_lt_of_mem x.2
  simp only [MimePart.multi.sizeOf_spec]
  omega

/-- The fixed `data` tree of lines 316–334: multipart/mixed root →
multipart/alternative → [quoted-printable text/plain ; multipart/related →
quoted-printable text/html].  The commented-out inline-file and attachment
slots of the source add nothing. -/
def message_mime (body_text body_html : List Char) : MimePart :=
  .multi ("mixed".toList)
    [.multi ("alternative".toList)
      [.single ("quoted-printable".toList) ("text/plain; charset=utf-8".toList) body_text,
       .multi ("related".toList)
         [.single ("quoted-printable".toList) ("text/html; charset=utf-8".toList) body_html]]]

/-- `lettre::message::Mailbox`: optional display name plus address. -/
structure Mailbox where
  displayName : Option (List Char)
  address : List Char
deriving DecidableEq, Repr

/-- The `Message` assembled by lines 336–343. -/
structure OutboundMessage where
  toMailbox : Mailbox
  fromMailbox : Mailbox
  subjectLine : List Char
  body : MimePart

/-- `send_email` (lines 303–347) up to the network send: recipient
normalization (via `normalize_address`), MIME assembly and `Message`
construction.  `cfg_from_name`/`cfg_from` are `CONFIG.smtp_from_name()` and
`CONFIG.smtp_from()`.  `lettre`'s `Address::from_str` (external) performs a
further syntactic parse that can fail; no claim concerns it, so it is
modelled as accepting, and the final `mailer().send(&email)` network step
is outside the embedding. -/
def send_email (idnaToAscii : List Char → Option (List Char))
    (cfg_from_name cfg_from : List Char)
    (address subject body_html body_text : List Char) :
    Except MailFailure OutboundMessage :=
  match normalize_address idnaToAscii address with
  | .error e => .error e
  | .ok addr =>
    .ok ⟨⟨none, addr⟩, ⟨some cfg_from_name, cfg_from⟩, subject,
         message_mime body_text body_html⟩

/-! ## DateFormatter (`format_datetime`, src/mail.rs lines 105–119) -/

/-- The calendar/clock fields referenced by the format string
`"%A, %B %_d, %Y at %r %Z"`: `%A` weekday, `%B` month, `%_d` day,
`%Y` year, `%r` twelve-hour time.  `weekday` is 0 = Sunday … 6 = Saturday;
`month` is 1–12. -/
structure CivilFields where
  weekday : Nat
  year : Int
  month : Nat
  day : Nat
  hour12 : Nat
  minute : Nat
  second : Nat
  isPM : Bool
deriving DecidableEq, Repr

/-- What `%Z` prints: a zone abbreviation (`DateTime<Tz>`) or a numeric
UTC offset (`DateTime<Local>`). -/
inductive ZoneDisplay
  | zoneAbbrev (s : List Char)
  | utcOffset (seconds : Int)
deriving DecidableEq, Repr

/-- Modelled from the spec: the output of chrono's strftime rendering of
`"%A, %B %_d, %Y at %r %Z"` (chrono is an external crate), kept as the
structured tuple of the referenced fields plus the `%Z` zone display
rather than as flat text. -/
structure FormattedDate where
  fields : CivilFields
  zone : ZoneDisplay
deriving DecidableEq, Repr

/-- chrono's `DateTime<Local>`: an instant (Unix seconds) carrying a fixed
local UTC offset (seconds east). -/
structure DateTimeLocal where
  epochSeconds : Int
  offsetSeconds : Int

/-- Modelled from the spec: one `chrono_tz::Tz` zone-database entry
(external crate): its UTC offset and abbreviation, each as a function of
the instant (zones may observe daylight saving). -/
structure TzEntry where
  offsetAt : Int → Int
  abbrevAt : Int → List Char

/-- Gregorian civil fields of the instant `t` (Unix seconds) after the
relevant UTC offset has been added — the standard civil-from-days
computation, plus 12-hour clock fields and the weekday. -/
def civilFromInstant (t : Int) : CivilFields :=
  let days : Int := t.fdiv 86400
  let sod : Nat := (t - days * 86400).toNat
  let weekday : Nat := ((days + 4).fmod 7).toNat
  let z : Int := days + 719468
  let era : Int := z.fdiv 146097
  let doe : Nat := (z - era * 146097).toNat
  let yoe : Nat := (doe - doe / 1460 + doe / 36524 - doe / 146096) / 365
  let y : Int := (yoe : Int) + era * 400
  let doy : Nat := doe - (365 * yoe + yoe / 4 - yoe / 100)
  let mp : Nat := (5 * doy + 2) / 153
  let d : Nat := doy - (153 * mp + 2) / 5 + 1
  let m : Nat := if mp < 10 then mp + 3 else mp - 9
  let hour24 : Nat := sod / 3600
  ⟨weekday, if m ≤ 2 then y + 1 else y, m, d,
   if hour24 % 12 = 0 then 12 else hour24 % 12,
   (sod / 60) % 60, sod % 60, decide (12 ≤ hour24)⟩

/-- `format_datetime` (lines 105–119).  `tzVar` is `env::var("TZ")`
(`none` when unset) and `tzDatabase` is `str::parse::<chrono_tz::Tz>`
(`none` when the name is not a recognized zone-database entry).  When the
override is present and recognized, the instant is converted into that
zone (`dt.with_timezone(&tz)`) and `%Z` prints the zone abbreviation;
otherwise the instant keeps its own local offset and `%Z` prints that
numeric offset. -/
def format_datetime (tzVar : Option (List Char))
    (tzDatabase : List Char → Option TzEntry) (dt : DateTimeLocal) :
    FormattedDate :=
  match tzVar with
  | some name =>
    match tzDatabase name with
    | some tz =>
      ⟨civilFromInstant (dt.epochSeconds + tz.offsetAt dt.epochSeconds),
       .zoneAbbrev (tz.abbrevAt dt.epochSeconds)⟩
    | none =>
      ⟨civilFromInstant (dt.epochSeconds + dt.offsetSeconds),
       .utcOffset dt.offsetSeconds⟩
  | none =>
    ⟨civilFromInstant (dt.epochSeconds + dt.offsetSeconds),
     .utcOffset dt.offsetSeconds⟩

/-- A fixed-offset zone-database entry (e.g. `Etc/GMT+5`, `Etc/UTC`). -/
def tzFixed (offset : Int) (ab : List Char) : TzEntry :=
  ⟨fun _ => offset, fun _ => ab⟩

/-- Modelled from the spec: a two-entry fragment of the zone database
(chrono-tz, external crate), enough to instantiate the theorems:
`Etc/GMT+5` (fixed offset UTC−5, abbreviation "-05") and `Etc/UTC`
(fixed offset 0, abbreviation "UTC"). -/
def tzDbModel : List Char → Option TzEntry := fun s =>
  if s = ("Etc/GMT+5".toList) then some (tzFixed (-18000) ("-05".toList))
  else if s = ("Etc/UTC".toList) then some (tzFixed 0 ("UTC".toList))
  else none

/-! ## Dispatchers (`send_delete_account`, `send_verify_email`,
`send_invite`; src/mail.rs lines 133–165 and 194–224) -/

/-- The UTF-8 bytes of one character. -/
def utf8Bytes (c : Char) : List Nat :=
  let n := c.toNat
  if n < 128 then [n]
  else if n < 2048 then [192 + n / 64, 128 + n % 64]
  else if n < 65536 then [224 + n / 4096, 128 + (n / 64) % 64, 128 + n % 64]
  else [240 + n / 262144, 128 + (n / 4096) % 64, 128 + (n / 64) % 64, 128 + n % 64]

/-- Upper-case hexadecimal digit for `n < 16`. -/
def hexDigitUpper (n : Nat) : Char :=
  if n < 10 then Char.ofNat (48 + n) else Char.ofNat (55 + n)

/-- `percent_encoding::percent_encode(bytes, NON_ALPHANUMERIC).to_string()`
(an external crate): every byte that is not an ASCII alphanumeric is
written as `%` followed by two upper-case hex digits; ASCII alphanumerics
pass through. -/
def percent_encode (s : List Char) : List Char :=
  s.flatMap (fun c =>
    if c.isAlphanum then [c]
    else (utf8Bytes c).flatMap (fun b => ['%', hexDigitUpper (b / 16), hexDigitUpper (b % 16)]))

/-- What a simple dispatcher hands on: the template context (the `json!`
mapping, in source order) and the string passed as the `address` argument
of `send_email` (the envelope recipient, handed to `Mailbox` construction
after IDNA normalization but never percent-encoded). -/
structure Dispatch where
  context : List (List Char × List Char)
  recipient : List Char
deriving DecidableEq, Repr

/-- `send_delete_account` (lines 133–148) up to its `send_email` call.
`domain` is `CONFIG.domain()`; `delete_token` is the encoded JWT returned
by the external claims encoder for `generate_delete_claims(uuid)`. -/
def send_delete_account (domain : List Char) (address uuid : List Char)
    (delete_token : List Char) : Dispatch :=
  ⟨[("url".toList, domain),
    ("user_id".toList, uuid),
    ("email".toList, percent_encode address),
    ("token".toList, delete_token)], address⟩

/-- `send_verify_email` (lines 150–165) up to its `send_email` call. -/
def send_verify_email (domain : List Char) (address uuid : List Char)
    (verify_email_token : List Char) : Dispatch :=
  ⟨[("url".toList, domain),
    ("user_id".toList, uuid),
    ("email".toList, percent_encode address),
    ("token".toList, verify_email_token)], address⟩

/-- The argument list `send_invite` passes to `generate_invite_claims`
(line 202–208).  The claims construction itself lives in `src/auth.rs`
(outside the given sources); this records exactly what crosses the call
boundary. -/
structure InviteClaimsArgs where
  sub : List Char
  email : List Char
  org_id : Option (List Char)
  org_user_id : Option (List Char)
  invited_by_email : Option (List Char)
deriving DecidableEq, Repr

/-- What `send_invite` hands on: the claims-encoder arguments, the template
context and the envelope recipient. -/
structure InviteDispatch where
  claimsArgs : InviteClaimsArgs
  context : List (List Char × List Char)
  recipient : List Char

/-- `send_invite` (lines 194–224) up to its `send_email` call.
`encode_jwt` is the external token encoder.  Note line 215/216: the
context receives `org_id.unwrap_or_else(|| "_".to_string())` (and likewise
for `org_user_id`), while the cloned originals went into the claims. -/
def send_invite (domain : List Char)
    (encode_jwt : InviteClaimsArgs → List Char)
    (address uuid : List Char) (org_id org_user_id : Option (List Char))
    (org_name : List Char) (invited_by_email : Option (List Char)) :
    InviteDispatch :=
  let claims : InviteClaimsArgs := ⟨uuid, address, org_id, org_user_id, invited_by_email⟩
  let invite_token := encode_jwt claims
  ⟨claims,
   [("url".toList, domain),
    ("org_id".toList, org_id.getD ("_".toList)),
    ("org_user_id".toList, org_user_id.getD ("_".toList)),
    ("email".toList, percent_encode address),
    ("org_name".toList, org_name),
    ("token".toList, invite_token)],
   address⟩

/-! ## Observers and concrete fixtures used by the theorems below -/

/-- The TLS mode of a `mailer()` outcome, when it built a transport. -/
def outcomeTls : MailerOutcome → Option Tls
  | .panicked => none
  | .built t => some t.tls

/-- The (mechanism restriction, warned) pair of a `mailer()` outcome. -/
def outcomeAuth : MailerOutcome → Option (Option (List Mechanism) × Bool)
  | .panicked => none
  | .built t => some (t.authentication, t.warnedNoValidMechanism)

/-- A configuration with no SMTP host set. -/
def cfgNoHost : Config := ⟨none, false, false, 25, none, none, none, none, 15⟩

/-- A second host-less configuration (different port/timeout). -/
def cfgNoHost2 : Config := ⟨none, true, true, 465, none, none, none, none, 10⟩

/-- A TLS-enabled, explicit-TLS configuration. -/
def cfgWrapper : Config :=
  ⟨some ("smtp.ex".toList), true, true, 465, none, none, none, none, 15⟩

/-- A configuration with an auth-mechanism preference string. -/
def cfgAuthPref : Config :=
  ⟨some ("smtp.ex".toList), false, false, 25, none, none, none,
   some ("PLAIN, bogus-mech".toList), 15⟩

/-- A rendered template with TWO delimiter occurrences ("A", "B", "C"
segments). -/
def c2TwoMarkerText : List Char :=
  "A".toList ++ templateDelim ++ "B".toList ++ templateDelim ++ "C".toList

/-- A well-formed rendered template (one delimiter occurrence). -/
def c2GoodText : List Char :=
  "Subject Line\n".toList ++ templateDelim ++ "\nBody text".toList

/-- The message `send_email` builds for a small concrete input. -/
def msgFixture : OutboundMessage :=
  ⟨⟨none, "u@ex.com".toList⟩, ⟨some ("N".toList), "f@ex.com".toList⟩,
   "S".toList, message_mime ("T".toList) ("H".toList)⟩

/-- A renderer with distinct well-formed templates for the HTML and the
plain-text variants of template "t". -/
def renderBoth : List Char → Except MailFailure (List Char) := fun n =>
  if n = ("t".toList ++ htmlSuffix) then
    .ok ("S1".toList ++ templateDelim ++ "B1".toList)
  else
    .ok ("S2".toList ++ templateDelim ++ "B2".toList)

/-! ## Helper lemmas -/

/-- A character that never occurs in a list is never found by
`breakAtFirst`. -/
theorem breakAtFirst_of_not_mem (sep : Char) :
    ∀ s : List Char, sep ∉ s → breakAtFirst sep s = none
  | [], _ => rfl
  | c :: cs, h => by
    have hc : ¬ c = sep := fun hh => h (by simp [hh])
    have ih := breakAtFirst_of_not_mem sep cs (fun hm => h (List.mem_cons_of_mem _ hm))
    simp [breakAtFirst, hc, ih]

/-- `breakAtFirst` cuts at the first occurrence of the separator. -/
theorem breakAtFirst_append (sep : Char) (b : List Char) :
    ∀ a : List Char, sep ∉ a → breakAtFirst sep (a ++ sep :: b) = some (a, b)
  | [], _ => by simp [breakAtFirst]
  | c :: cs, h => by
    have hc : ¬ c = sep := fun hh => h (by simp [hh])
    have ih := breakAtFirst_append sep b cs (fun hm => h (List.mem_cons_of_mem _ hm))
    simp [breakAtFirst, hc, ih]

/-- Without the separator, `rsplitn2` yields the one-element list. -/
theorem rsplitn2_of_not_mem (sep : Char) (s : List Char) (h : sep ∉ s) :
    rsplitn2 sep s = [s] := by
  have hb : breakAtFirst sep s.reverse = none :=
    breakAtFirst_of_not_mem sep s.reverse (by simpa using h)
  simp [rsplitn2, hb]

/-- `rsplitn2` cuts at the right-most occurrence of the separator: when
the separator does not occur in `d`, the input `l ++ sep :: d` splits into
`[d, l]` — `l` itself may still contain the separator. -/
theorem rsplitn2_rightmost (sep : Char) (l d : List Char) (h : sep ∉ d) :
    rsplitn2 sep (l ++ sep :: d) = [d, l] := by
  have hb : breakAtFirst sep (d.reverse ++ sep :: l.reverse) = some (d.reverse, l.reverse) :=
    breakAtFirst_append sep l.reverse d.reverse (by simpa using h)
  simp [rsplitn2, hb]

/-- An index returned by `findSeq` is an occurrence of the pattern, and the
FIRST one: no smaller index is an occurrence. -/
theorem findSeq_some_first (pat : List Char) :
    ∀ (s : List Char) (i : Nat), findSeq pat s = some i →
      pat.isPrefixOf (s.drop i) = true ∧
      ∀ j, j < i → ¬ pat.isPrefixOf (s.drop j) = true := by
  intro s
  induction s with
  | nil =>
    intro i h
    simp only [findSeq] at h
    by_cases hp : pat.isEmpty
    · rw [if_pos hp] at h
      cases h
      refine ⟨?_, fun j hj => absurd hj (Nat.not_lt_zero j)⟩
      cases pat with
      | nil => rfl
      | cons c cs => simp [List.isEmpty] at hp
    · rw [if_neg hp] at h
      cases h
  | cons c cs ih =>
    intro i h
    simp only [findSeq] at h
    by_cases hp : pat.isPrefixOf (c :: cs) = true
    · rw [if_pos hp] at h
      cases h
      exact ⟨hp, fun j hj => absurd hj (Nat.not_lt_zero j)⟩
    · rw [if_neg hp] at h
      cases hfind : findSeq pat cs with
      | none => rw [hfind] at h; cases h
      | some k =>
        rw [hfind] at h
        simp only [Option.map_some'] at h
        cases h
        obtain ⟨h1, h2⟩ := ih k hfind
        refine ⟨h1, ?_⟩
        intro j hj
        cases j with
        | zero => simpa using hp
        | succ j' =>
          have : j' < k := Nat.lt_of_succ_lt_succ hj
          simpa using h2 j' this

/-- When `findSeq` finds nothing, the pattern occurs at no index. -/
theorem findSeq_none_no_occurrence (pat : List Char) :
    ∀ s : List Char, findSeq pat s = none →
      ∀ j, ¬ pat.isPrefixOf (s.drop j) = true := by
  intro s
  induction s with
  | nil =>
    intro h j
    simp only [findSeq] at h
    by_cases hp : pat.isEmpty
    · rw [if_pos hp] at h; cases h
    · intro hcon
      cases pat with
      | nil => simp [List.isEmpty] at hp
      | cons a as => simp [List.isPrefixOf] at hcon
  | cons c cs ih =>
    intro h j
    simp only [findSeq] at h
    by_cases hp : pat.isPrefixOf (c :: cs) = true
    · rw [if_pos hp] at h; cases h
    · rw [if_neg hp] at h
      cases hfind : findSeq pat cs with
      | none =>
        cases j with
        | zero => simpa using hp
        | succ j' => simpa using ih hfind j'
      | some k => rw [hfind] at h; exact Option.noConfusion h

/-- Every character has a Unicode scalar value below 0x110000. -/
theorem char_toNat_lt_max (c : Char) : c.toNat < 1114112 := by
  rcases c.valid with h | h
  · exact Nat.lt_trans h (by norm_num)
  · exact h.2

/-- UTF-8 code units are bytes. -/
theorem utf8Bytes_lt_256 (c : Char) : ∀ b ∈ utf8Bytes c, b < 256 := by
  intro b hb
  have hc : c.toNat < 1114112 := char_toNat_lt_max c
  unfold utf8Bytes at hb
  by_cases h1 : c.toNat < 128
  · simp [h1] at hb
    omega
  · by_cases h2 : c.toNat < 2048
    · simp [h1, h2] at hb
      rcases hb with rfl | rfl <;> omega
    · by_cases h3 : c.toNat < 65536
      · simp [h1, h2, h3] at hb
        rcases hb with rfl | rfl | rfl <;> omega
      · simp [h1, h2, h3] at hb
        rcases hb with rfl | rfl | rfl | rfl <;> omega

/-- No upper-case hex digit is the at-sign. -/
theorem hexDigitUpper_ne_atSign : ∀ n, n < 16 → hexDigitUpper n ≠ '@' := by decide

/-- Percent-encoding with the NON_ALPHANUMERIC set never leaves an `@` in
its output (so an address containing `@` is always changed by it). -/
theorem atSign_not_mem_percent_encode (s : List Char) : '@' ∉ percent_encode s := by
  intro hmem
  rw [percent_encode, List.mem_flatMap] at hmem
  obtain ⟨c, hc, hin⟩ := hmem
  by_cases hal : c.isAlphanum
  · rw [if_pos hal] at hin
    have hce : '@' = c := by simpa using hin
    rw [← hce] at hal
    exact absurd hal (by decide)
  · rw [if_neg hal] at hin
    rw [List.mem_flatMap] at hin
    obtain ⟨b, hb, hin⟩ := hin
    have hb256 : b < 256 := utf8Bytes_lt_256 c b hb
    simp only [List.mem_cons, List.not_mem_nil, or_false] at hin
    rcases hin with h | h | h
    · exact absurd h (by decide)
    · exact hexDigitUpper_ne_atSign (b / 16) (by omega) h.symm
    · exact hexDigitUpper_ne_atSign (b % 16) (by omega) h.symm

/-! ## Claim theorems -/

/-- C1 (amended): for every recipient address and every behaviour of the
strict IDNA to-ASCII transform, an address containing no `@` fails with
`InvalidAddress`; an address of the form `l ++ '@' :: d` with `d` free of
`@` (so the split is at the right-most `@`; `l` may itself contain `@` and
either part may be empty) is normalized by applying the transform to the
domain segment `d`: if the transform accepts, yielding `p`, the result is
the reassembled `l ++ '@' :: p`; if it rejects, the call fails with
`DomainEncodingError`.  Hence normalization succeeds iff the domain
segment passes the strict transform — but the parts are NOT required to be
non-empty (see the counterexample). -/
theorem c1_normalize_amended (f : List Char → Option (List Char)) (address : List Char) :
    ('@' ∉ address → normalize_address f address = .error .invalidAddress) ∧
    (∀ l d, address = l ++ '@' :: d → '@' ∉ d →
      (∀ p, f d = some p → normalize_address f address = .ok (l ++ '@' :: p)) ∧
      (f d = none → normalize_address f address = .error .domainEncoding)) := by
  constructor
  · intro h
    simp [normalize_address, rsplitn2_of_not_mem '@' address h]
  · intro l d hsplit hd
    subst hsplit
    constructor
    · intro p hp
      simp [normalize_address, rsplitn2_rightmost '@' l d hd, hp]
    · intro hp
      simp [normalize_address, rsplitn2_rightmost '@' l d hd, hp]

/-- C1 witness: a plain ASCII address normalizes to itself; an address
without `@` fails with `InvalidAddress`. -/
theorem c1_witness :
    normalize_address idnaAsciiModel ("user@ex.com".toList) = .ok ("user@ex.com".toList) ∧
    normalize_address idnaAsciiModel ("nodomain".toList) = .error .invalidAddress :=
  ⟨by
    have h := (c1_normalize_amended idnaAsciiModel ("user@ex.com".toList)).2
      ("user".toList) ("ex.com".toList) (by decide) (by decide)
    exact h.1 ("ex.com".toList) (by decide),
   (c1_normalize_amended idnaAsciiModel ("nodomain".toList)).1 (by decide)⟩

/-- C1 counterexample: the claim requires the split to yield exactly two
NON-EMPTY parts (failing otherwise), but the code only checks the part
count.  For `"@example.com"` the right-most split yields an EMPTY local
part, yet normalization succeeds — the non-emptiness requirement is not
enforced. -/
theorem c1_counterexample :
    rsplitn2 '@' ("@example.com".toList) = [("example.com".toList), ([] : List Char)] ∧
    normalize_address idnaAsciiModel ("@example.com".toList) = .ok ("@example.com".toList) := by
  decide

/-- C2 (amended): when the renderer yields a text in which the delimiter
marker never occurs (`findSeq` = `none`, equivalently no index is an
occurrence by `findSeq_none_no_occurrence`), `get_template` fails with
`TemplateFormatError`.  When the first occurrence is at index `i`, the
subject is the text before `i`, trimmed, and the body is the segment
BETWEEN the first occurrence and the NEXT occurrence (or the end), trimmed
— not everything after the first marker, as the claim states (see the
counterexample). -/
theorem c2_get_template_amended (render : List Char → Except MailFailure (List Char))
    (template_name : List Char) :
    (∀ text, render template_name = .ok text → findSeq templateDelim text = none →
        get_template render template_name = .error .templateFormat) ∧
    (∀ text i, render template_name = .ok text → findSeq templateDelim text = some i →
        get_template render template_name =
          .ok (trimCh (text.take i),
               trimCh ((splitNext templateDelim
                 (text.drop (i + templateDelim.length))).1)) ∧
        templateDelim.isPrefixOf (text.drop i) = true ∧
        (∀ j, j < i → ¬ templateDelim.isPrefixOf (text.drop j) = true)) := by
  constructor
  · intro text hr hf
    simp [get_template, hr, splitNext, hf]
  · intro text i hr hf
    refine ⟨by simp [get_template, hr, splitNext, hf], ?_, ?_⟩
    · exact (findSeq_some_first templateDelim text i hf).1
    · exact (findSeq_some_first templateDelim text i hf).2

/-- C2 witness: a well-formed template (first occurrence at index 13)
splits into subject and body; a marker-less template fails with
`TemplateFormatError`. -/
theorem c2_witness :
    get_template (fun _ => .ok c2GoodText) ("t".toList) =
      .ok (trimCh (c2GoodText.take 13),
           trimCh ((splitNext templateDelim
             (c2GoodText.drop (13 + templateDelim.length))).1)) ∧
    get_template (fun _ => .ok ("no marker here".toList)) ("t".toList) =
      .error .templateFormat :=
  ⟨((c2_get_template_amended (fun _ => .ok c2GoodText) ("t".toList)).2
      c2GoodText 13 rfl (by decide)).1,
   (c2_get_template_amended (fun _ => .ok ("no marker here".toList)) ("t".toList)).1
      ("no marker here".toList) rfl (by decide)⟩

/-- C2 counterexample: on a rendered text with TWO delimiter occurrences
("A", "B", "C" segments) the code returns body "B" — the segment between
the two markers — while the claim ("text after the marker, trimmed, is the
body", formalised by `get_template_specModel`) requires the body to be
everything after the first marker, and the two differ. -/
theorem c2_counterexample :
    get_template (fun _ => .ok c2TwoMarkerText) ("t".toList) =
      .ok ("A".toList, "B".toList) ∧
    get_template_specModel (fun _ => .ok c2TwoMarkerText) ("t".toList) =
      .ok ("A".toList, ("B".toList ++ templateDelim ++ "C".toList)) ∧
    ("B".toList : List Char) ≠ "B".toList ++ templateDelim ++ "C".toList := by
  decide

/-- C3: for every configuration whose host is set, the transport's TLS
mode is Wrapper when TLS and explicit-TLS are both enabled, Required when
TLS is enabled but explicit-TLS is not, and None (`Tls.phantom`, carrying
no TLS parameters) when TLS is disabled; whenever parameters are built
they carry the minimum protocol version TLS 1.1. -/
theorem c3_tls_modes (cfg : Config) (host : List Char)
    (h : cfg.smtp_host = some host) :
    ((cfg.smtp_ssl = true ∧ cfg.smtp_explicit_tls = true) →
        outcomeTls (mailer cfg) = some (Tls.wrapper ⟨host, TlsProtocol.tlsv11⟩)) ∧
    ((cfg.smtp_ssl = true ∧ cfg.smtp_explicit_tls = false) →
        outcomeTls (mailer cfg) = some (Tls.required ⟨host, TlsProtocol.tlsv11⟩)) ∧
    (cfg.smtp_ssl = false → outcomeTls (mailer cfg) = some Tls.phantom) := by
  refine ⟨?_, ?_, ?_⟩
  · rintro ⟨h1, h2⟩
    simp [mailer, h, h1, h2, outcomeTls]
  · rintro ⟨h1, h2⟩
    simp [mailer, h, h1, h2, outcomeTls]
  · intro h1
    simp [mailer, h, h1, outcomeTls]

/-- C3 witness: the TLS-enabled, explicit-TLS fixture builds a Wrapper
transport with protocol floor TLS 1.1. -/
theorem c3_witness :
    outcomeTls (mailer cfgWrapper) =
      some (Tls.wrapper ⟨("smtp.ex".toList), TlsProtocol.tlsv11⟩) :=
  (c3_tls_modes cfgWrapper ("smtp.ex".toList) rfl).1 ⟨rfl, rfl⟩

/-- C4 (amended): for every configured preference string, tokens are split
on commas, trimmed of quotes and whitespace, and matched case-insensitively
against {Plain, Login, XOAuth2}; matches are collected in the order the
CONFIGURED tokens appear (the outer loop runs over the tokens), not in the
allowed-set order as the claim states (see the counterexample).  A
non-empty selection restricts the transport to exactly those mechanisms; an
empty selection leaves the library default and raises the non-fatal
warning.  The spec's two examples hold, as does an order-revealing third. -/
theorem c4_auth_mechanism_amended (cfg : Config) (host pref : List Char)
    (hh : cfg.smtp_host = some host) (hm : cfg.smtp_auth_mechanism = some pref) :
    (selected_mechanisms pref ≠ [] →
        outcomeAuth (mailer cfg) = some (some (selected_mechanisms pref), false)) ∧
    (selected_mechanisms pref = [] →
        outcomeAuth (mailer cfg) = some (none, true)) ∧
    selected_mechanisms ("PLAIN, bogus-mech".toList) = [.plain] ∧
    selected_mechanisms ("nonexistent".toList) = [] ∧
    selected_mechanisms ("XOAuth2, Plain".toList) = [.xoauth2, .plain] := by
  refine ⟨?_, ?_, by decide, by decide, by decide⟩
  · intro hne
    have he : (selected_mechanisms pref).isEmpty = false := by
      cases hsel : selected_mechanisms pref with
      | nil => exact absurd hsel hne
      | cons a as => rfl
    simp [mailer, hh, hm, outcomeAuth, he]
  · intro hnil
    have he : (selected_mechanisms pref).isEmpty = true := by
      rw [hnil]; rfl
    simp [mailer, hh, hm, outcomeAuth, he]

/-- C4 witness: the fixture configured with "PLAIN, bogus-mech" restricts
the transport to the selected mechanisms without warning. -/
theorem c4_witness :
    outcomeAuth (mailer cfgAuthPref) =
      some (some (selected_mechanisms ("PLAIN, bogus-mech".toList)), false) :=
  (c4_auth_mechanism_amended cfgAuthPref ("smtp.ex".toList)
    ("PLAIN, bogus-mech".toList) rfl rfl).1 (by decide)

/-- C4 counterexample: for the preference string "login,plain" the code
collects [Login, Plain] — the configured-token order — while the claim
("in the order the allowed set is iterated", formalised by
`selected_mechanisms_specModel`) requires [Plain, Login]; the two
disagree. -/
theorem c4_counterexample :
    selected_mechanisms ("login,plain".toList) = [.login, .plain] ∧
    selected_mechanisms_specModel ("login,plain".toList) = [.plain, .login] ∧
    selected_mechanisms ("login,plain".toList) ≠
      selected_mechanisms_specModel ("login,plain".toList) := by
  decide

/-- C5 (amended): when the SMTP host is unset, building the transport
panics at `CONFIG.smtp_host().unwrap()` — an untyped abort of the calling
thread, not a typed `TransportConfigError` returned to the caller (the
function's return type has no error channel at all). -/
theorem c5_missing_host_amended (cfg : Config) (h : cfg.smtp_host = none) :
    mailer cfg = .panicked := by
  simp [mailer, h]

/-- C5 witness: the second host-less fixture panics. -/
theorem c5_witness : mailer cfgNoHost2 = .panicked :=
  c5_missing_host_amended cfgNoHost2 rfl

/-- C5 counterexample: with the host unset, `mailer` ends in `panicked` —
the `.unwrap()` abort.  `MailerOutcome` faithfully has no error
constructor because the Rust function returns a bare `SmtpTransport`,
so no typed `TransportConfigError` can be "returned from the dispatch
call" as the claim states; the failure is an untyped abort. -/
theorem c5_counterexample : mailer cfgNoHost = .panicked := rfl

/-- C6: every message composed by `send_email`, for any subject, HTML body
and text body, has the fixed MIME tree multipart/mixed → [
multipart/alternative → [quoted-printable text/plain (utf-8) ;
multipart/related → [quoted-printable text/html (utf-8)]]] — exactly two
content leaves — with To carrying no display name, From carrying the
configured display name plus address, and the subject set verbatim. -/
theorem c6_message_structure (idnaFn : List Char → Option (List Char))
    (from_name from_addr address subject body_html body_text : List Char)
    (msg : OutboundMessage)
    (h : send_email idnaFn from_name from_addr address subject body_html body_text = .ok msg) :
    msg.body =
      MimePart.multi ("mixed".toList)
        [MimePart.multi ("alternative".toList)
          [MimePart.single ("quoted-printable".toList)
             ("text/plain; charset=utf-8".toList) body_text,
           MimePart.multi ("related".toList)
             [MimePart.single ("quoted-printable".toList)
                ("text/html; charset=utf-8".toList) body_html]]] ∧
    mimeLeaves msg.body =
      [(("quoted-printable".toList), ("text/plain; charset=utf-8".toList), body_text),
       (("quoted-printable".toList), ("text/html; charset=utf-8".toList), body_html)] ∧
    (mimeLeaves msg.body).length = 2 ∧
    msg.toMailbox.displayName = none ∧
    msg.fromMailbox = ⟨some from_name, from_addr⟩ ∧
    msg.subjectLine = subject := by
  unfold send_email at h
  cases hn : normalize_address idnaFn address with
  | error e => rw [hn] at h; cases h
  | ok addr =>
    rw [hn] at h
    cases h
    refine ⟨rfl, ?_, ?_, rfl, rfl, rfl⟩
    · simp [mimeLeaves, message_mime]
    · simp [mimeLeaves, message_mime]

/-- C6 witness: the concrete fixture message has the claimed structure. -/
theorem c6_witness :
    msgFixture.body =
      MimePart.multi ("mixed".toList)
        [MimePart.multi ("alternative".toList)
          [MimePart.single ("quoted-printable".toList)
             ("text/plain; charset=utf-8".toList) ("T".toList),
           MimePart.multi ("related".toList)
             [MimePart.single ("quoted-printable".toList)
                ("text/html; charset=utf-8".toList) ("H".toList)]]] ∧
    mimeLeaves msgFixture.body =
      [(("quoted-printable".toList), ("text/plain; charset=utf-8".toList), "T".toList),
       (("quoted-printable".toList), ("text/html; charset=utf-8".toList), "H".toList)] ∧
    (mimeLeaves msgFixture.body).length = 2 ∧
    msgFixture.toMailbox.displayName = none ∧
    msgFixture.fromMailbox = ⟨some ("N".toList), "f@ex.com".toList⟩ ∧
    msgFixture.subjectLine = "S".toList :=
  c6_message_structure idnaAsciiModel ("N".toList) ("f@ex.com".toList)
    ("u@ex.com".toList) ("S".toList) ("H".toList) ("T".toList) msgFixture (by rfl)

/-- C7 (amended): `get_text` invokes the templating collaborator first on
the template name suffixed with ".html"; only if that call succeeds does it
invoke the collaborator a second time on the unsuffixed name — so the
collaborator is invoked exactly twice on the success path but only once
when the HTML-variant call fails (see the counterexample).  On success the
returned subject is always the HTML variant's subject, and the plain-text
variant's subject is discarded (its body is kept). -/
theorem c7_get_text_amended (render : List Char → Except MailFailure (List Char))
    (template_name : List Char) :
    (∀ v, get_template render (template_name ++ htmlSuffix) = .ok v →
        (get_text render template_name).2 = [template_name ++ htmlSuffix, template_name]) ∧
    (∀ e, get_template render (template_name ++ htmlSuffix) = .error e →
        (get_text render template_name).2 = [template_name ++ htmlSuffix]) ∧
    (∀ s bh bt, (get_text render template_name).1 = .ok (s, bh, bt) →
        get_template render (template_name ++ htmlSuffix) = .ok (s, bh) ∧
        ∃ st, get_template render template_name = .ok (st, bt)) := by
  refine ⟨?_, ?_, ?_⟩
  · intro v hv
    obtain ⟨a, b⟩ := v
    cases h2 : get_template render template_name with
    | error e => simp [get_text, hv, h2]
    | ok w => obtain ⟨c, d⟩ := w; simp [get_text, hv, h2]
  · intro e he
    simp [get_text, he]
  · intro s bh bt h
    cases h1 : get_template render (template_name ++ htmlSuffix) with
    | error e =>
      rw [show (get_text render template_name).1 = .error e by simp [get_text, h1]] at h
      cases h
    | ok v =>
      obtain ⟨a, b⟩ := v
      cases h2 : get_template render template_name with
      | error e =>
        rw [show (get_text render template_name).1 = .error e by simp [get_text, h1, h2]] at h
        cases h
      | ok w =>
        obtain ⟨st, bt'⟩ := w
        rw [show (get_text render template_name).1 = .ok (a, b, bt') by
          simp [get_text, h1, h2]] at h
        have hinj := Except.ok.inj h
        have hs : a = s := congrArg Prod.fst hinj
        have hbh : b = bh := congrArg (fun p => p.2.1) hinj
        have hbt : bt' = bt := congrArg (fun p => p.2.2) hinj
        subst hs; subst hbh; subst hbt
        exact ⟨rfl, st, rfl⟩

/-- C7 witness: with well-formed templates for both variants, both
collaborator calls happen (in order HTML variant then text variant), the
subject comes from the HTML variant and the text body from the text
variant. -/
theorem c7_witness :
    (get_text renderBoth ("t".toList)).2 =
      [("t".toList ++ htmlSuffix), "t".toList] ∧
    get_template renderBoth (("t".toList) ++ htmlSuffix) =
      .ok ("S1".toList, "B1".toList) ∧
    (∃ st, get_template renderBoth ("t".toList) = .ok (st, "B2".toList)) := by
  refine ⟨?_, ?_, ?_⟩
  · exact (c7_get_text_amended renderBoth ("t".toList)).1
      ("S1".toList, "B1".toList) (by decide)
  · exact ((c7_get_text_amended renderBoth ("t".toList)).2.2
      ("S1".toList) ("B1".toList) ("B2".toList) (by decide)).1
  · exact ((c7_get_text_amended renderBoth ("t".toList)).2.2
      ("S1".toList) ("B1".toList) ("B2".toList) (by decide)).2

/-- C7 counterexample: when the collaborator fails on the HTML variant,
`get_text` invokes it only ONCE — not "exactly twice" for every template
name and context as the claim states (the `?` operator short-circuits
before the plain-text call). -/
theorem c7_counterexample :
    (get_text (fun _ => .error .renderFailed) ("t".toList)).2 =
      [("t".toList ++ htmlSuffix)] ∧
    ((get_text (fun _ => .error .renderFailed) ("t".toList)).2).length = 1 := by
  decide

/-- C8 (amended): with a recognized zone override the formatter renders
the instant CONVERTED into that zone with a zone-abbreviation suffix;
without one (or with an unrecognized name) it renders the instant at its
own local offset with a numeric UTC-offset suffix.  The two renderings of
the same instant share identical weekday/month/day/year/time fields
WHENEVER the override zone's offset at that instant equals the timestamp's
own offset — not unconditionally as the claim states (see the
counterexample). -/
theorem c8_format_datetime_amended (tzVar : Option (List Char))
    (tzDb : List Char → Option TzEntry) (dt : DateTimeLocal) :
    (∀ name tz, tzVar = some name → tzDb name = some tz →
        format_datetime tzVar tzDb dt =
          ⟨civilFromInstant (dt.epochSeconds + tz.offsetAt dt.epochSeconds),
           .zoneAbbrev (tz.abbrevAt dt.epochSeconds)⟩ ∧
        (tz.offsetAt dt.epochSeconds = dt.offsetSeconds →
            (format_datetime tzVar tzDb dt).fields =
              (format_datetime none tzDb dt).fields)) ∧
    (tzVar = none →
        format_datetime tzVar tzDb dt =
          ⟨civilFromInstant (dt.epochSeconds + dt.offsetSeconds),
           .utcOffset dt.offsetSeconds⟩) ∧
    (∀ name, tzVar = some name → tzDb name = none →
        format_datetime tzVar tzDb dt =
          ⟨civilFromInstant (dt.epochSeconds + dt.offsetSeconds),
           .utcOffset dt.offsetSeconds⟩) := by
  refine ⟨?_, ?_, ?_⟩
  · intro name tz h1 h2
    constructor
    · simp [format_datetime, h1, h2]
    · intro hoff
      simp [format_datetime, h1, h2, hoff]
  · intro h1
    simp [format_datetime, h1]
  · intro name h1 h2
    simp [format_datetime, h1, h2]

/-- C8 witness: with the override "Etc/UTC" (offset 0) and a timestamp
whose own offset is 0, the zone-abbreviation rendering is produced and its
fields agree with the numeric-offset rendering. -/
theorem c8_witness :
    format_datetime (some ("Etc/UTC".toList)) tzDbModel ⟨0, 0⟩ =
      ⟨civilFromInstant ((0 : Int) + 0), ZoneDisplay.zoneAbbrev ("UTC".toList)⟩ ∧
    (format_datetime (some ("Etc/UTC".toList)) tzDbModel ⟨0, 0⟩).fields =
      (format_datetime none tzDbModel ⟨0, 0⟩).fields := by
  have h := (c8_format_datetime_amended (some ("Etc/UTC".toList)) tzDbModel ⟨0, 0⟩).1
    ("Etc/UTC".toList) (tzFixed 0 ("UTC".toList)) rfl (by rfl)
  exact ⟨h.1, h.2 rfl⟩

/-- C8 counterexample: the instant 0 (1970-01-01 00:00:00 UTC) with local
offset 0, rendered under the recognized override "Etc/GMT+5" (offset −5 h),
shows Wednesday, December 31, 1969, 7:00:00 PM, while the no-override
rendering shows Thursday, January 1, 1970, 12:00:00 AM — the weekday, month,
day, year and time fields all differ, contradicting the claim that both
renderings share identical fields for the same instant. -/
theorem c8_counterexample :
    (format_datetime (some ("Etc/GMT+5".toList)) tzDbModel ⟨0, 0⟩).fields =
      ⟨3, 1969, 12, 31, 7, 0, 0, true⟩ ∧
    (format_datetime none tzDbModel ⟨0, 0⟩).fields =
      ⟨4, 1970, 1, 1, 12, 0, 0, false⟩ ∧
    (format_datetime (some ("Etc/GMT+5".toList)) tzDbModel ⟨0, 0⟩).fields ≠
      (format_datetime none tzDbModel ⟨0, 0⟩).fields := by
  refine ⟨by decide, by decide, by decide⟩

/-- C9: in each of the three dispatchers that embed the recipient address
as a URL parameter (delete-account, verify-email, organization invite),
the context's "email" entry is the percent-encoded address while the
envelope recipient handed to `send_email` (and thence to `Mailbox`
construction) is the address unchanged; for any address containing `@`
the two strings really differ, since percent-encoding never leaves an
`@`. -/
theorem c9_email_percent_encoding (domain address uuid tok1 tok2 org_name : List Char)
    (encode : InviteClaimsArgs → List Char)
    (org_id org_user_id invited_by : Option (List Char))
    (h : '@' ∈ address) :
    ((send_delete_account domain address uuid tok1).context.lookup ("email".toList) =
        some (percent_encode address) ∧
      (send_delete_account domain address uuid tok1).recipient = address) ∧
    ((send_verify_email domain address uuid tok2).context.lookup ("email".toList) =
        some (percent_encode address) ∧
      (send_verify_email domain address uuid tok2).recipient = address) ∧
    ((send_invite domain encode address uuid org_id org_user_id org_name
        invited_by).context.lookup ("email".toList) = some (percent_encode address) ∧
      (send_invite domain encode address uuid org_id org_user_id org_name
        invited_by).recipient = address) ∧
    percent_encode address ≠ address :=
  ⟨⟨rfl, rfl⟩, ⟨rfl, rfl⟩, ⟨rfl, rfl⟩,
   fun he => atSign_not_mem_percent_encode address (by rw [he]; exact h)⟩

/-- C9 witness: the three dispatchers evaluated at the concrete address
"a@b.c". -/
theorem c9_witness :
    ((send_delete_account ("D".toList) ("a@b.c".toList) ("u".toList)
        ("t1".toList)).context.lookup ("email".toList) =
        some (percent_encode ("a@b.c".toList)) ∧
      (send_delete_account ("D".toList) ("a@b.c".toList) ("u".toList)
        ("t1".toList)).recipient = "a@b.c".toList) ∧
    ((send_verify_email ("D".toList) ("a@b.c".toList) ("u".toList)
        ("t2".toList)).context.lookup ("email".toList) =
        some (percent_encode ("a@b.c".toList)) ∧
      (send_verify_email ("D".toList) ("a@b.c".toList) ("u".toList)
        ("t2".toList)).recipient = "a@b.c".toList) ∧
    ((send_invite ("D".toList) (fun _ => "tk".toList) ("a@b.c".toList) ("u".toList)
        none none ("O".toList) none).context.lookup ("email".toList) =
        some (percent_encode ("a@b.c".toList)) ∧
      (send_invite ("D".toList) (fun _ => "tk".toList) ("a@b.c".toList) ("u".toList)
        none none ("O".toList) none).recipient = "a@b.c".toList) ∧
    percent_encode ("a@b.c".toList) ≠ "a@b.c".toList :=
  c9_email_percent_encoding ("D".toList) ("a@b.c".toList) ("u".toList)
    ("t1".toList) ("t2".toList) ("O".toList) (fun _ => "tk".toList)
    none none none (by decide)

/-- C10 (amended): `send_invite` passes the ORIGINAL optional
`org_id`/`org_user_id` values to the claims encoder, while the template
context's `org_id`/`org_user_id` entries are always present, holding "_"
when the respective optional is absent and the contained string when it is
present — so an entry is empty exactly when a PRESENT id is itself the
empty string, and "never empty" does not hold unconditionally (see the
counterexample). -/
theorem c10_invite_context_amended (domain : List Char)
    (encode : InviteClaimsArgs → List Char) (address uuid : List Char)
    (org_id org_user_id : Option (List Char)) (org_name : List Char)
    (invited_by : Option (List Char)) :
    (send_invite domain encode address uuid org_id org_user_id org_name
        invited_by).claimsArgs = ⟨uuid, address, org_id, org_user_id, invited_by⟩ ∧
    (send_invite domain encode address uuid org_id org_user_id org_name
        invited_by).context.lookup ("org_id".toList) =
      some (org_id.getD ("_".toList)) ∧
    (send_invite domain encode address uuid org_id org_user_id org_name
        invited_by).context.lookup ("org_user_id".toList) =
      some (org_user_id.getD ("_".toList)) ∧
    (org_id = none →
      (send_invite domain encode address uuid org_id org_user_id org_name
          invited_by).context.lookup ("org_id".toList) = some ("_".toList)) ∧
    (org_user_id = none →
      (send_invite domain encode address uuid org_id org_user_id org_name
          invited_by).context.lookup ("org_user_id".toList) = some ("_".toList)) ∧
    ((send_invite domain encode address uuid org_id org_user_id org_name
        invited_by).context.lookup ("org_id".toList)).isSome = true ∧
    ((send_invite domain encode address uuid org_id org_user_id org_name
        invited_by).context.lookup ("org_user_id".toList)).isSome = true := by
  refine ⟨rfl, rfl, rfl, ?_, ?_, rfl, rfl⟩
  · intro h
    subst h
    rfl
  · intro h
    subst h
    rfl

/-- C10 witness: with both optionals absent, both context entries hold
"_". -/
theorem c10_witness :
    (send_invite ("d".toList) (fun _ => "tk".toList) ("a@b.c".toList) ("u".toList)
        none none ("O".toList) none).context.lookup ("org_id".toList) =
      some ("_".toList) ∧
    (send_invite ("d".toList) (fun _ => "tk".toList) ("a@b.c".toList) ("u".toList)
        none none ("O".toList) none).context.lookup ("org_user_id".toList) =
      some ("_".toList) :=
  ⟨(c10_invite_context_amended ("d".toList) (fun _ => "tk".toList) ("a@b.c".toList)
      ("u".toList) none none ("O".toList) none).2.2.2.1 rfl,
   (c10_invite_context_amended ("d".toList) (fun _ => "tk".toList) ("a@b.c".toList)
      ("u".toList) none none ("O".toList) none).2.2.2.2.1 rfl⟩

/-- C10 counterexample: when `org_id` is present but holds the empty
string, the context's `org_id` entry IS the empty string — contradicting
the claim that the entry is never empty. -/
theorem c10_counterexample :
    (send_invite ("d".toList) (fun _ => "tk".toList) ("a@b.c".toList) ("u".toList)
        (some []) none ("O".toList) none).context.lookup ("org_id".toList) =
      some ([] : List Char) := rfl

end VwMail
